import Mathlib

/-!
# Zigbee valve node: actuation, commissioning signals and battery percentage

A shallow embedding of `main/esp_zb_light.c` and `main/esp_zb_light.h`:

* the two valve pins and the attribute callback `attr_cb`, as explicit pin state
  driven by the list of `gpio_set_level` writes each call performs;
* the signal handler `esp_zb_app_signal_handler`, as the list of stack calls it
  makes for a signal type and a status code;
* `calculate_battery_percentage` and the byte the reporting loop stores, over
  exact rational arithmetic.
-/

namespace ValveNode

/-! ## Constants of the SDK headers -/

/-- Named constants of the ESP Zigbee SDK and ESP-IDF headers that the source uses by
name only. Their numeric values are not part of the repository, so every definition
takes them as a parameter. The four signal types are the `case` labels of one C
`switch`, which the compiler requires to be pairwise distinct. -/
structure SdkConstants where
  ESP_ZB_ZCL_CLUSTER_ID_ON_OFF : Nat
  ESP_ZB_ZCL_ATTR_ON_OFF_ON_OFF_ID : Nat
  ESP_OK : Int
  ESP_ZB_ZDO_SIGNAL_SKIP_STARTUP : Nat
  ESP_ZB_BDB_SIGNAL_DEVICE_FIRST_START : Nat
  ESP_ZB_BDB_SIGNAL_DEVICE_REBOOT : Nat
  ESP_ZB_BDB_SIGNAL_STEERING : Nat
  ESP_ZB_BDB_MODE_INITIALIZATION : Nat
  ESP_ZB_BDB_MODE_NETWORK_STEERING : Nat
  case_labels_distinct :
    [ESP_ZB_ZDO_SIGNAL_SKIP_STARTUP, ESP_ZB_BDB_SIGNAL_DEVICE_FIRST_START,
      ESP_ZB_BDB_SIGNAL_DEVICE_REBOOT, ESP_ZB_BDB_SIGNAL_STEERING].Nodup

/-- The values the ESP Zigbee SDK gives these constants: on/off cluster `0x0006`,
on/off attribute `0x0000`, `ESP_OK = 0`, signal types `0x01`, `0x05`, `0x06`, `0x0a`,
commissioning modes `0x00` and `0x02`. Used for concrete evaluations only. -/
def esp_zigbee_sdk : SdkConstants where
  ESP_ZB_ZCL_CLUSTER_ID_ON_OFF := 0x0006
  ESP_ZB_ZCL_ATTR_ON_OFF_ON_OFF_ID := 0x0000
  ESP_OK := 0
  ESP_ZB_ZDO_SIGNAL_SKIP_STARTUP := 0x01
  ESP_ZB_BDB_SIGNAL_DEVICE_FIRST_START := 0x05
  ESP_ZB_BDB_SIGNAL_DEVICE_REBOOT := 0x06
  ESP_ZB_BDB_SIGNAL_STEERING := 0x0a
  ESP_ZB_BDB_MODE_INITIALIZATION := 0x00
  ESP_ZB_BDB_MODE_NETWORK_STEERING := 0x02
  case_labels_distinct := by decide

/-! ## Valve pins -/

/-- GPIO number 4 of the ESP-IDF `gpio_num_t` enumeration. -/
def GPIO_NUM_4 : Nat := 4

/-- GPIO number 5 of the ESP-IDF `gpio_num_t` enumeration. -/
def GPIO_NUM_5 : Nat := 5

/-- The header line `define VALVE_ON_PIN  GPIO_NUM_4`. -/
def VALVE_ON_PIN : Nat := GPIO_NUM_4

/-- The header line `define VALVE_OFF_PIN GPIO_NUM_5`. -/
def VALVE_OFF_PIN : Nat := GPIO_NUM_5

/-- Output levels of the two valve pins: the level last written to `VALVE_ON_PIN` and
the level last written to `VALVE_OFF_PIN`. -/
structure PinState where
  on_pin : Nat
  off_pin : Nat
deriving DecidableEq, Repr

/-- One `gpio_set_level(gpio_num, level)` call. -/
structure GpioWrite where
  gpio_num : Nat
  level : Nat
deriving DecidableEq, Repr

/-- Effect of `gpio_set_level(gpio_num, level)` on the two valve pins; a write to any
other pin leaves both untouched. -/
def gpio_set_level (gpio_num level : Nat) (s : PinState) : PinState :=
  if gpio_num = VALVE_ON_PIN then { s with on_pin := level }
  else if gpio_num = VALVE_OFF_PIN then { s with off_pin := level }
  else s

/-- Pin state after one recorded write. -/
def apply_write (s : PinState) (w : GpioWrite) : PinState :=
  gpio_set_level w.gpio_num w.level s

/-- Pin state after a list of writes, performed in order. -/
def run_writes (s : PinState) (ws : List GpioWrite) : PinState :=
  ws.foldl apply_write s

/-- The pin states reached after each single write of a list, in order. -/
def write_states (s : PinState) : List GpioWrite → List PinState
  | [] => []
  | w :: ws => apply_write s w :: write_states (apply_write s w) ws

/-- The `gpio_set_level` calls of `initialize_valve_pins`, in source order:
`VALVE_ON_PIN := 0`, then `VALVE_OFF_PIN := 1`. -/
def initialize_valve_pins_writes : List GpioWrite :=
  [⟨VALVE_ON_PIN, 0⟩, ⟨VALVE_OFF_PIN, 1⟩]

/-- Pin state left by `initialize_valve_pins`, from any prior pin state. -/
def initialize_valve_pins (s : PinState) : PinState :=
  run_writes s initialize_valve_pins_writes

/-- The `gpio_set_level` calls of one `attr_cb` call, in source order. `new_value` is
the byte `*(uint8_t*)new_value` the callback reads. Only the on/off attribute of the
on/off cluster writes pins; `status` and `endpoint` are never inspected. -/
def attr_cb_writes (K : SdkConstants) (_status _endpoint cluster_id attr_id new_value : Nat) :
    List GpioWrite :=
  if cluster_id = K.ESP_ZB_ZCL_CLUSTER_ID_ON_OFF then
    let value := new_value
    if attr_id = K.ESP_ZB_ZCL_ATTR_ON_OFF_ON_OFF_ID then
      if value ≠ 0 then
        [⟨VALVE_ON_PIN, 1⟩, ⟨VALVE_OFF_PIN, 0⟩]
      else
        [⟨VALVE_ON_PIN, 0⟩, ⟨VALVE_OFF_PIN, 1⟩]
    else []
  else []

/-- Pin state after one completed `attr_cb` call. -/
def attr_cb (K : SdkConstants) (s : PinState)
    (status endpoint cluster_id attr_id new_value : Nat) : PinState :=
  run_writes s (attr_cb_writes K status endpoint cluster_id attr_id new_value)

/-- The arguments of one `attr_cb` call. -/
structure Notification where
  status : Nat
  endpoint : Nat
  cluster_id : Nat
  attr_id : Nat
  new_value : Nat
deriving DecidableEq, Repr

/-- The writes of the `attr_cb` call for notification `n`. -/
def notification_writes (K : SdkConstants) (n : Notification) : List GpioWrite :=
  attr_cb_writes K n.status n.endpoint n.cluster_id n.attr_id n.new_value

/-- Pin state after the `attr_cb` call for notification `n`. -/
def deliver (K : SdkConstants) (s : PinState) (n : Notification) : PinState :=
  attr_cb K s n.status n.endpoint n.cluster_id n.attr_id n.new_value

/-- Pin state after a sequence of notifications, delivered serially. -/
def deliver_all (K : SdkConstants) (s : PinState) (ns : List Notification) : PinState :=
  ns.foldl (deliver K) s

/-- A step of the write-level trace: the notification being handled, the pin state in
which its `attr_cb` call started, the index of the write within the call (0 for the
first), and the pin state right after that write. -/
structure WriteStep where
  notification : Notification
  before : PinState
  index : Nat
  state : PinState
deriving DecidableEq, Repr

/-- The write-level steps of one `attr_cb` call that started in state `start`; `i` is
the index of the first remaining write and `s` the pin state before it. -/
def call_steps (n : Notification) (start : PinState) (i : Nat) (s : PinState) :
    List GpioWrite → List WriteStep
  | [] => []
  | w :: ws =>
    ⟨n, start, i, apply_write s w⟩ :: call_steps n start (i + 1) (apply_write s w) ws

/-- Every state reached after a single pin write while a sequence of notifications is
delivered from state `s`, each tagged with its call, the state the call started in and
the write index. -/
def trace_steps (K : SdkConstants) (s : PinState) : List Notification → List WriteStep
  | [] => []
  | n :: ns =>
    call_steps n s 0 s (notification_writes K n) ++ trace_steps K (deliver K s n) ns

/-- The pin is driven high. -/
def is_high (level : Nat) : Prop := level ≠ 0

instance (level : Nat) : Decidable (is_high level) :=
  inferInstanceAs (Decidable (level ≠ 0))

/-- Both valve pins are high. -/
def both_high (s : PinState) : Prop := is_high s.on_pin ∧ is_high s.off_pin

instance (s : PinState) : Decidable (both_high s) :=
  inferInstanceAs (Decidable (is_high s.on_pin ∧ is_high s.off_pin))

/-- Neither valve pin is high. -/
def neither_high (s : PinState) : Prop := ¬ is_high s.on_pin ∧ ¬ is_high s.off_pin

instance (s : PinState) : Decidable (neither_high s) :=
  inferInstanceAs (Decidable (¬ is_high s.on_pin ∧ ¬ is_high s.off_pin))

/-- Exactly one of the two valve pins is high. -/
def exactly_one_high (s : PinState) : Prop := ¬ both_high s ∧ ¬ neither_high s

instance (s : PinState) : Decidable (exactly_one_high s) :=
  inferInstanceAs (Decidable (¬ both_high s ∧ ¬ neither_high s))

/-- Valve closed: on-pin 0, off-pin 1. -/
def valve_closed : PinState := ⟨0, 1⟩

/-- Valve open: on-pin 1, off-pin 0. -/
def valve_open : PinState := ⟨1, 0⟩

/-! ## Commissioning signals -/

/-- The callbacks the source hands to `esp_zb_scheduler_alarm`. -/
inductive Callback where
  | bdb_start_top_level_commissioning_cb
deriving DecidableEq, Repr

/-- The calls into the stack and the logger that the signal handler makes. -/
inductive StackCall where
  /-- An `ESP_LOGI` line. -/
  | log_info
  /-- An `ESP_LOGE` line. -/
  | log_error
  /-- The call `esp_zb_bdb_start_top_level_commissioning(mode_mask)`. -/
  | bdb_start_top_level_commissioning (mode_mask : Nat)
  /-- The read accessor `esp_zb_get_extended_pan_id`. -/
  | get_extended_pan_id
  /-- The read accessor `esp_zb_get_pan_id`. -/
  | get_pan_id
  /-- The call `esp_zb_scheduler_alarm(cb, param, time_ms)`: run `cb(param)` once,
  `time_ms` milliseconds from now. -/
  | scheduler_alarm (cb : Callback) (param : Nat) (time_ms : Nat)
deriving DecidableEq, Repr

/-- Body of `bdb_start_top_level_commissioning_cb(mode_mask)`: one top-level
commissioning request with that mode. -/
def bdb_start_top_level_commissioning_cb (mode_mask : Nat) : List StackCall :=
  [.bdb_start_top_level_commissioning mode_mask]

/-- What a scheduled callback does when its alarm fires with `param`. -/
def fire_callback : Callback → Nat → List StackCall
  | .bdb_start_top_level_commissioning_cb, param => bdb_start_top_level_commissioning_cb param

/-- The calls `esp_zb_app_signal_handler` makes, in source order, for the signal type
`sig_type` and status code `err_status` of the delivered signal. The `switch` is
written as a chain of tests in label order. -/
def esp_zb_app_signal_handler (K : SdkConstants) (sig_type : Nat) (err_status : Int) :
    List StackCall :=
  if sig_type = K.ESP_ZB_ZDO_SIGNAL_SKIP_STARTUP then
    [.log_info, .bdb_start_top_level_commissioning K.ESP_ZB_BDB_MODE_INITIALIZATION]
  else if sig_type = K.ESP_ZB_BDB_SIGNAL_DEVICE_FIRST_START ∨
      sig_type = K.ESP_ZB_BDB_SIGNAL_DEVICE_REBOOT then
    if err_status = K.ESP_OK then
      [.log_info, .bdb_start_top_level_commissioning K.ESP_ZB_BDB_MODE_NETWORK_STEERING]
    else
      [.log_error]
  else if sig_type = K.ESP_ZB_BDB_SIGNAL_STEERING then
    if err_status = K.ESP_OK then
      [.get_extended_pan_id, .get_pan_id, .log_info]
    else
      [.log_info,
        .scheduler_alarm .bdb_start_top_level_commissioning_cb
          K.ESP_ZB_BDB_MODE_NETWORK_STEERING 1000]
  else
    [.log_info]

/-- A call that asks the stack to do something: a commissioning request or a scheduled
alarm. Log lines and the two read accessors are observations only. -/
def StackCall.is_request : StackCall → Bool
  | .bdb_start_top_level_commissioning _ => true
  | .scheduler_alarm _ _ _ => true
  | _ => false

/-- The requested actions among a list of calls, in order. -/
def requested_actions (calls : List StackCall) : List StackCall :=
  calls.filter StackCall.is_request

/-- The commissioning status of the specification's data model. The source declares no
such type and stores no status. -/
inductive CommissioningStatus where
  | Uninitialized
  | StackReady
  | Steering
  | Joined
  | SteeringFailed
deriving DecidableEq, Repr

/-- The status reached after a signal. The source keeps no status variable, so the
status is carried beside the handler: each branch of `esp_zb_app_signal_handler` sets
it to the state the specification's transition table names for that branch (stack
initialised: `StackReady`; steering started: `Steering`; stack start failed:
`Uninitialized`; joined: `Joined`; steering failed with the retry alarm armed:
`Steering`), and the default branch leaves it as it was. As in the source, which branch
runs depends on the signal type and status code alone. -/
def status_after (K : SdkConstants) (st : CommissioningStatus) (sig_type : Nat)
    (err_status : Int) : CommissioningStatus :=
  if sig_type = K.ESP_ZB_ZDO_SIGNAL_SKIP_STARTUP then
    .StackReady
  else if sig_type = K.ESP_ZB_BDB_SIGNAL_DEVICE_FIRST_START ∨
      sig_type = K.ESP_ZB_BDB_SIGNAL_DEVICE_REBOOT then
    if err_status = K.ESP_OK then .Steering else .Uninitialized
  else if sig_type = K.ESP_ZB_BDB_SIGNAL_STEERING then
    if err_status = K.ESP_OK then .Joined else .Steering
  else
    st

/-- The signal handler as a transition function: from the commissioning status, the
signal type and the status code to the next status and the requested actions. -/
def signal_step (K : SdkConstants) (st : CommissioningStatus) (sig_type : Nat)
    (err_status : Int) : CommissioningStatus × List StackCall :=
  (status_after K st sig_type err_status,
    requested_actions (esp_zb_app_signal_handler K sig_type err_status))

/-! ## Battery percentage -/

/-- The header line `define VOLTAGE_DIVIDER_R1 10000.0`. -/
def VOLTAGE_DIVIDER_R1 : ℚ := 10000.0

/-- The header line `define VOLTAGE_DIVIDER_R2 4700.0`. -/
def VOLTAGE_DIVIDER_R2 : ℚ := 4700.0

/-- The header line `define ADC_MAX_VALUE 4095.0`. -/
def ADC_MAX_VALUE : ℚ := 4095.0

/-- The header line `define ADC_REFERENCE_VOLTAGE 3.3`. -/
def ADC_REFERENCE_VOLTAGE : ℚ := 3.3

/-- The header line `define BATTERY_VOLTAGE_MIN 2.5`. -/
def BATTERY_VOLTAGE_MIN : ℚ := 2.5

/-- The header line `define BATTERY_VOLTAGE_MAX 4.2`. -/
def BATTERY_VOLTAGE_MAX : ℚ := 4.2

/-- The function `read_battery_voltage`, as a function of the raw sample `adc1_get_raw` returns,
over exact rational arithmetic. -/
def read_battery_voltage (adc_value : Int) : ℚ :=
  let voltage_at_io6 := ((adc_value : ℚ) / ADC_MAX_VALUE) * ADC_REFERENCE_VOLTAGE
  let battery_voltage :=
    voltage_at_io6 / (VOLTAGE_DIVIDER_R2 / (VOLTAGE_DIVIDER_R1 + VOLTAGE_DIVIDER_R2))
  battery_voltage

/-- The function `calculate_battery_percentage`, over exact rational arithmetic (no rounding, no
NaN or infinities). The comparisons are the strict ones of the source. -/
def calculate_battery_percentage (battery_voltage : ℚ) : ℚ :=
  if battery_voltage > BATTERY_VOLTAGE_MAX then
    100.0
  else if battery_voltage < BATTERY_VOLTAGE_MIN then
    0.0
  else
    ((battery_voltage - BATTERY_VOLTAGE_MIN) / (BATTERY_VOLTAGE_MAX - BATTERY_VOLTAGE_MIN))
      * 100.0

/-- The C conversion of a real value to an integer: the fractional part is discarded
(truncation toward zero). -/
def truncate (x : ℚ) : Int :=
  if 0 ≤ x then ⌊x⌋ else ⌈x⌉

/-- The cast `(uint8_t)x`: truncation, kept in one byte (modulo 256). -/
def to_uint8 (x : ℚ) : Nat :=
  (truncate x % 256).toNat

/-- The byte one cycle of the reporting loop in `app_main` stores in
`battery_percentage_attr` for a measured voltage. -/
def stored_battery_percentage (battery_voltage : ℚ) : Nat :=
  to_uint8 (calculate_battery_percentage battery_voltage)

/-- The byte one cycle of the reporting loop stores for a raw ADC sample. -/
def app_main_cycle (adc_value : Int) : Nat :=
  stored_battery_percentage (read_battery_voltage adc_value)

/-! ## Helper lemmas on the pin model -/

lemma initialize_valve_pins_eq (s : PinState) : initialize_valve_pins s = valve_closed := by
  cases s
  rfl

lemma attr_cb_cases (K : SdkConstants) (s : PinState)
    (status endpoint cluster_id attr_id new_value : Nat) :
    attr_cb K s status endpoint cluster_id attr_id new_value = s ∨
    attr_cb K s status endpoint cluster_id attr_id new_value = valve_open ∨
    attr_cb K s status endpoint cluster_id attr_id new_value = valve_closed := by
  cases s
  unfold attr_cb attr_cb_writes
  by_cases hc : cluster_id = K.ESP_ZB_ZCL_CLUSTER_ID_ON_OFF
  · by_cases ha : attr_id = K.ESP_ZB_ZCL_ATTR_ON_OFF_ON_OFF_ID
    · by_cases hv : new_value = 0
      · right; right
        simp [hc, ha, hv]
        rfl
      · right; left
        simp [hc, ha, hv]
        rfl
    · left
      simp [hc, ha]
      rfl
  · left
    simp [hc]
    rfl

lemma deliver_all_settled (K : SdkConstants) (ns : List Notification) (s : PinState)
    (hs : s = valve_open ∨ s = valve_closed) :
    deliver_all K s ns = valve_open ∨ deliver_all K s ns = valve_closed := by
  induction ns generalizing s with
  | nil => simpa [deliver_all] using hs
  | cons n ns ih =>
    have hstep : deliver K s n = valve_open ∨ deliver K s n = valve_closed := by
      rcases attr_cb_cases K s n.status n.endpoint n.cluster_id n.attr_id n.new_value
        with h | h | h
      · unfold deliver; rw [h]; exact hs
      · left; exact h
      · right; exact h
    simpa [deliver_all] using ih (deliver K s n) hstep

lemma settled_exactly_one_high (s : PinState) (hs : s = valve_open ∨ s = valve_closed) :
    exactly_one_high s := by
  rcases hs with h | h <;> subst h <;> decide

lemma attr_cb_writes_on_off (K : SdkConstants) (status endpoint new_value : Nat) :
    attr_cb_writes K status endpoint K.ESP_ZB_ZCL_CLUSTER_ID_ON_OFF
        K.ESP_ZB_ZCL_ATTR_ON_OFF_ON_OFF_ID new_value =
      if new_value ≠ 0 then [⟨VALVE_ON_PIN, 1⟩, ⟨VALVE_OFF_PIN, 0⟩]
      else [⟨VALVE_ON_PIN, 0⟩, ⟨VALVE_OFF_PIN, 1⟩] := by
  simp [attr_cb_writes]

lemma attr_cb_writes_other (K : SdkConstants) (status endpoint cluster_id attr_id new_value : Nat)
    (h : cluster_id ≠ K.ESP_ZB_ZCL_CLUSTER_ID_ON_OFF ∨
      attr_id ≠ K.ESP_ZB_ZCL_ATTR_ON_OFF_ON_OFF_ID) :
    attr_cb_writes K status endpoint cluster_id attr_id new_value = [] := by
  unfold attr_cb_writes
  rcases h with h | h
  · simp [h]
  · by_cases hc : cluster_id = K.ESP_ZB_ZCL_CLUSTER_ID_ON_OFF <;> simp [hc, h]

lemma run_open_writes (s : PinState) :
    run_writes s [⟨VALVE_ON_PIN, 1⟩, ⟨VALVE_OFF_PIN, 0⟩] = valve_open := by
  cases s
  rfl

lemma run_close_writes (s : PinState) :
    run_writes s [⟨VALVE_ON_PIN, 0⟩, ⟨VALVE_OFF_PIN, 1⟩] = valve_closed := by
  cases s
  rfl

/-! ## Valve actuation: theorems -/

/-- C1: `initialize_valve_pins` leaves the closed state (on-pin 0, off-pin 1) from any
prior pin state, and in that state and in the state left after every completed
`attr_cb` call of every finite sequence of notifications (any status, endpoint,
cluster, attribute and value byte) exactly one of the two valve pins is high. -/
theorem exactly_one_pin_high_after_every_call (K : SdkConstants) (s0 : PinState)
    (ns : List Notification) :
    initialize_valve_pins s0 = ⟨0, 1⟩ ∧
    exactly_one_high (initialize_valve_pins s0) ∧
    ∀ k : Nat, exactly_one_high (deliver_all K (initialize_valve_pins s0) (ns.take k)) := by
  refine ⟨initialize_valve_pins_eq s0, ?_, ?_⟩
  · rw [initialize_valve_pins_eq]
    decide
  · intro k
    apply settled_exactly_one_high
    apply deliver_all_settled
    right
    exact initialize_valve_pins_eq s0

/-- C3: for every prior pin state, status and endpoint, `attr_cb` on the on/off
attribute of the on/off cluster ends with the valve open (on-pin 1, off-pin 0) when
the value byte is non-zero, in particular 1, and closed (on-pin 0, off-pin 1) when it
is 0; the result is the same for every status. -/
theorem on_off_write_sets_valve (K : SdkConstants) (s : PinState)
    (status endpoint value : Nat) :
    (value ≠ 0 →
      attr_cb K s status endpoint K.ESP_ZB_ZCL_CLUSTER_ID_ON_OFF
        K.ESP_ZB_ZCL_ATTR_ON_OFF_ON_OFF_ID value = ⟨1, 0⟩) ∧
    attr_cb K s status endpoint K.ESP_ZB_ZCL_CLUSTER_ID_ON_OFF
        K.ESP_ZB_ZCL_ATTR_ON_OFF_ON_OFF_ID 1 = ⟨1, 0⟩ ∧
    attr_cb K s status endpoint K.ESP_ZB_ZCL_CLUSTER_ID_ON_OFF
        K.ESP_ZB_ZCL_ATTR_ON_OFF_ON_OFF_ID 0 = ⟨0, 1⟩ ∧
    ∀ other_status : Nat,
      attr_cb K s other_status endpoint K.ESP_ZB_ZCL_CLUSTER_ID_ON_OFF
          K.ESP_ZB_ZCL_ATTR_ON_OFF_ON_OFF_ID value =
        attr_cb K s status endpoint K.ESP_ZB_ZCL_CLUSTER_ID_ON_OFF
          K.ESP_ZB_ZCL_ATTR_ON_OFF_ON_OFF_ID value := by
  refine ⟨?_, ?_, ?_, ?_⟩
  · intro hv
    unfold attr_cb
    rw [attr_cb_writes_on_off, if_pos hv]
    exact run_open_writes s
  · unfold attr_cb
    rw [attr_cb_writes_on_off, if_pos (by decide)]
    exact run_open_writes s
  · unfold attr_cb
    rw [attr_cb_writes_on_off, if_neg (by decide)]
    exact run_close_writes s
  · intro other_status
    unfold attr_cb
    rw [attr_cb_writes_on_off, attr_cb_writes_on_off]

/-- Witness for C3 with the SDK's constants: from the closed state a failed write
(status 1) of value 255 opens the valve, and from the open state value 0 closes it. -/
theorem on_off_write_sets_valve_witness :
    attr_cb esp_zigbee_sdk ⟨0, 1⟩ 1 10 6 0 255 = ⟨1, 0⟩ ∧
    attr_cb esp_zigbee_sdk ⟨1, 0⟩ 1 10 6 0 0 = ⟨0, 1⟩ :=
  ⟨(on_off_write_sets_valve esp_zigbee_sdk ⟨0, 1⟩ 1 10 255).1 (by decide),
    (on_off_write_sets_valve esp_zigbee_sdk ⟨1, 0⟩ 1 10 0).2.2.1⟩

/-- C4: for every prior pin state and every notification whose cluster is not the
on/off cluster, or whose attribute is not the on/off value attribute, `attr_cb`
performs no pin write and both pins keep their prior levels. -/
theorem other_notification_writes_no_pin (K : SdkConstants) (s : PinState)
    (status endpoint cluster_id attr_id new_value : Nat)
    (h : cluster_id ≠ K.ESP_ZB_ZCL_CLUSTER_ID_ON_OFF ∨
      (cluster_id = K.ESP_ZB_ZCL_CLUSTER_ID_ON_OFF ∧
        attr_id ≠ K.ESP_ZB_ZCL_ATTR_ON_OFF_ON_OFF_ID)) :
    attr_cb_writes K status endpoint cluster_id attr_id new_value = [] ∧
    attr_cb K s status endpoint cluster_id attr_id new_value = s := by
  have hw : attr_cb_writes K status endpoint cluster_id attr_id new_value = [] := by
    apply attr_cb_writes_other
    rcases h with h | h
    · exact Or.inl h
    · exact Or.inr h.2
  refine ⟨hw, ?_⟩
  unfold attr_cb
  rw [hw]
  rfl

/-- Witness for C4 with the SDK's constants: a write to the on/off cluster's attribute
`0x4001` while the valve is open writes no pin. -/
theorem other_notification_writes_no_pin_witness :
    attr_cb_writes esp_zigbee_sdk 0 10 6 0x4001 1 = [] ∧
    attr_cb esp_zigbee_sdk ⟨1, 0⟩ 0 10 6 0x4001 1 = ⟨1, 0⟩ :=
  other_notification_writes_no_pin esp_zigbee_sdk ⟨1, 0⟩ 0 10 6 0x4001 1
    (Or.inr ⟨rfl, by decide⟩)

lemma trace_steps_append (K : SdkConstants) (s : PinState) (pre post : List Notification) :
    trace_steps K s (pre ++ post) =
      trace_steps K s pre ++ trace_steps K (deliver_all K s pre) post := by
  induction pre generalizing s with
  | nil => simp [trace_steps, deliver_all]
  | cons n pre ih =>
    have hd : deliver_all K s (n :: pre) = deliver_all K (deliver K s n) pre := rfl
    rw [List.cons_append]
    simp only [trace_steps]
    rw [ih, hd, List.append_assoc]

lemma first_opening_step (K : SdkConstants) (n : Notification) (s : PinState)
    (h1 : n.cluster_id = K.ESP_ZB_ZCL_CLUSTER_ID_ON_OFF)
    (h2 : n.attr_id = K.ESP_ZB_ZCL_ATTR_ON_OFF_ON_OFF_ID) (hv : n.new_value ≠ 0) :
    call_steps n s 0 s (notification_writes K n) =
      [⟨n, s, 0, ⟨1, s.off_pin⟩⟩, ⟨n, s, 1, ⟨1, 0⟩⟩] := by
  have hw := attr_cb_writes_on_off K n.status n.endpoint n.new_value
  rw [← h1, ← h2, if_pos hv] at hw
  unfold notification_writes
  rw [hw]
  rfl

lemma first_closing_step (K : SdkConstants) (n : Notification) (s : PinState)
    (h1 : n.cluster_id = K.ESP_ZB_ZCL_CLUSTER_ID_ON_OFF)
    (h2 : n.attr_id = K.ESP_ZB_ZCL_ATTR_ON_OFF_ON_OFF_ID) (hv : ¬ n.new_value ≠ 0) :
    call_steps n s 0 s (notification_writes K n) =
      [⟨n, s, 0, ⟨0, s.off_pin⟩⟩, ⟨n, s, 1, ⟨0, 1⟩⟩] := by
  have hw := attr_cb_writes_on_off K n.status n.endpoint n.new_value
  rw [← h1, ← h2, if_neg hv] at hw
  unfold notification_writes
  rw [hw]
  rfl

lemma call_steps_both_high (K : SdkConstants) (n : Notification) (s : PinState)
    (hs : s = valve_open ∨ s = valve_closed) (st : WriteStep)
    (hst : st ∈ call_steps n s 0 s (notification_writes K n)) :
    (both_high st.state ↔
      st.index = 0 ∧ st.before = valve_closed ∧
      st.notification.cluster_id = K.ESP_ZB_ZCL_CLUSTER_ID_ON_OFF ∧
      st.notification.attr_id = K.ESP_ZB_ZCL_ATTR_ON_OFF_ON_OFF_ID ∧
      st.notification.new_value ≠ 0) ∧
    (both_high st.state → st.state = ⟨1, 1⟩) := by
  by_cases hc : n.cluster_id = K.ESP_ZB_ZCL_CLUSTER_ID_ON_OFF ∧
      n.attr_id = K.ESP_ZB_ZCL_ATTR_ON_OFF_ON_OFF_ID
  · obtain ⟨h1, h2⟩ := hc
    by_cases hv : n.new_value ≠ 0
    · rw [first_opening_step K n s h1 h2 hv] at hst
      simp only [List.mem_cons, List.mem_nil_iff, or_false] at hst
      rcases hs with h | h <;> subst h <;> rcases hst with h | h <;> subst h <;>
        simp [both_high, is_high, valve_open, valve_closed, h1, h2, hv]
    · rw [first_closing_step K n s h1 h2 hv] at hst
      simp only [List.mem_cons, List.mem_nil_iff, or_false] at hst
      have hv0 : n.new_value = 0 := not_not.mp hv
      rcases hs with h | h <;> subst h <;> rcases hst with h | h <;> subst h <;>
        simp [both_high, is_high, valve_open, valve_closed, hv0]
  · have hw : notification_writes K n = [] := by
      apply attr_cb_writes_other
      by_cases h1 : n.cluster_id = K.ESP_ZB_ZCL_CLUSTER_ID_ON_OFF
      · right
        intro h2
        exact hc ⟨h1, h2⟩
      · left
        exact h1
    rw [hw] at hst
    simp [call_steps] at hst

lemma trace_steps_both_high (K : SdkConstants) (ns : List Notification) (s : PinState)
    (hs : s = valve_open ∨ s = valve_closed) (st : WriteStep)
    (hst : st ∈ trace_steps K s ns) :
    (both_high st.state ↔
      st.index = 0 ∧ st.before = valve_closed ∧
      st.notification.cluster_id = K.ESP_ZB_ZCL_CLUSTER_ID_ON_OFF ∧
      st.notification.attr_id = K.ESP_ZB_ZCL_ATTR_ON_OFF_ON_OFF_ID ∧
      st.notification.new_value ≠ 0) ∧
    (both_high st.state → st.state = ⟨1, 1⟩) := by
  induction ns generalizing s with
  | nil => simp [trace_steps] at hst
  | cons n ns ih =>
    simp only [trace_steps, List.mem_append] at hst
    rcases hst with h | h
    · exact call_steps_both_high K n s hs st h
    · apply ih (deliver K s n) _ h
      rcases attr_cb_cases K s n.status n.endpoint n.cluster_id n.attr_id n.new_value
        with h | h | h
      · unfold deliver; rw [h]; exact hs
      · left; exact h
      · right; exact h

/-- C2, as stated, fails: after `initialize_valve_pins`, one notification that sets the
on/off attribute to 1 is handled by writing `VALVE_ON_PIN := 1` first, while
`VALVE_OFF_PIN` is still 1, so the state between the two writes of that `attr_cb` call
has both pins high. -/
theorem both_pins_high_between_opening_writes :
    (trace_steps esp_zigbee_sdk (initialize_valve_pins ⟨0, 0⟩) [⟨0, 10, 6, 0, 1⟩]).map
        WriteStep.state = [⟨1, 1⟩, ⟨1, 0⟩] ∧
    both_high (⟨1, 1⟩ : PinState) := by
  decide

/-- C2, amended: taking each `gpio_set_level` write as one step, the two writes of
`initialize_valve_pins` never leave both pins high, and from the closed state it
leaves, for every sequence of `attr_cb` notifications, the state after a write has both
pins high exactly when that write is the first one (`VALVE_ON_PIN := 1`) of a call,
made while the valve is closed, that sets the on/off attribute of the on/off cluster to
a non-zero byte, and the state is then (1, 1). Every such call does pass through that
state. No other step has both pins high: not the last write of any call, not a write
of a closing call, not a write of an opening call made while the valve is already
open; and the state after every completed call never has both pins high. -/
theorem both_high_only_between_opening_writes (K : SdkConstants) (s0 : PinState)
    (ns : List Notification) :
    (∀ t ∈ write_states s0 initialize_valve_pins_writes, ¬ both_high t) ∧
    (∀ st ∈ trace_steps K (initialize_valve_pins s0) ns,
      (both_high st.state ↔
        st.index = 0 ∧ st.before = ⟨0, 1⟩ ∧
        st.notification.cluster_id = K.ESP_ZB_ZCL_CLUSTER_ID_ON_OFF ∧
        st.notification.attr_id = K.ESP_ZB_ZCL_ATTR_ON_OFF_ON_OFF_ID ∧
        st.notification.new_value ≠ 0) ∧
      (both_high st.state → st.state = ⟨1, 1⟩)) ∧
    (∀ (pre post : List Notification) (n : Notification),
      ns = pre ++ n :: post →
      deliver_all K (initialize_valve_pins s0) pre = ⟨0, 1⟩ →
      n.cluster_id = K.ESP_ZB_ZCL_CLUSTER_ID_ON_OFF →
      n.attr_id = K.ESP_ZB_ZCL_ATTR_ON_OFF_ON_OFF_ID →
      n.new_value ≠ 0 →
      (⟨n, ⟨0, 1⟩, 0, ⟨1, 1⟩⟩ : WriteStep) ∈
        trace_steps K (initialize_valve_pins s0) ns) ∧
    ¬ both_high (deliver_all K (initialize_valve_pins s0) ns) := by
  refine ⟨?_, ?_, ?_, ?_⟩
  · intro t ht
    cases s0
    simp only [write_states, initialize_valve_pins_writes, List.mem_cons, List.mem_nil_iff,
      or_false] at ht
    rcases ht with h | h <;> subst h <;> simp [both_high, is_high, apply_write, gpio_set_level,
      VALVE_ON_PIN, VALVE_OFF_PIN, GPIO_NUM_4, GPIO_NUM_5]
  · intro st hst
    exact trace_steps_both_high K ns _ (Or.inr (initialize_valve_pins_eq s0)) st hst
  · intro pre post n hns hpre h1 h2 hv
    rw [hns, trace_steps_append, hpre]
    apply List.mem_append_right
    simp only [trace_steps, List.mem_append]
    left
    rw [first_opening_step K n _ h1 h2 hv]
    simp
  · exact (settled_exactly_one_high _
      (deliver_all_settled K ns _ (Or.inr (initialize_valve_pins_eq s0)))).1

/-- Witness for amended C2 with the SDK's constants: in the sequence open, open, close,
the first opening call starts with the valve closed and its first write leaves both
pins high; the second opening call starts with the valve open, and its first write is
a traced step without both pins high. -/
theorem both_high_only_between_opening_writes_witness :
    ((⟨⟨0, 10, 6, 0, 1⟩, ⟨0, 1⟩, 0, ⟨1, 1⟩⟩ : WriteStep) ∈
      trace_steps esp_zigbee_sdk (initialize_valve_pins ⟨0, 0⟩)
        [⟨0, 10, 6, 0, 1⟩, ⟨0, 10, 6, 0, 1⟩, ⟨0, 10, 6, 0, 0⟩]) ∧
    both_high (⟨⟨0, 10, 6, 0, 1⟩, ⟨0, 1⟩, 0, ⟨1, 1⟩⟩ : WriteStep).state ∧
    ((⟨⟨0, 10, 6, 0, 1⟩, ⟨1, 0⟩, 0, ⟨1, 0⟩⟩ : WriteStep) ∈
      trace_steps esp_zigbee_sdk (initialize_valve_pins ⟨0, 0⟩)
        [⟨0, 10, 6, 0, 1⟩, ⟨0, 10, 6, 0, 1⟩, ⟨0, 10, 6, 0, 0⟩]) ∧
    ¬ both_high (⟨⟨0, 10, 6, 0, 1⟩, ⟨1, 0⟩, 0, ⟨1, 0⟩⟩ : WriteStep).state :=
  ⟨(both_high_only_between_opening_writes esp_zigbee_sdk ⟨0, 0⟩
      [⟨0, 10, 6, 0, 1⟩, ⟨0, 10, 6, 0, 1⟩, ⟨0, 10, 6, 0, 0⟩]).2.2.1
      [] [⟨0, 10, 6, 0, 1⟩, ⟨0, 10, 6, 0, 0⟩] ⟨0, 10, 6, 0, 1⟩ rfl (by decide) rfl rfl
      (by decide),
    ((both_high_only_between_opening_writes esp_zigbee_sdk ⟨0, 0⟩
      [⟨0, 10, 6, 0, 1⟩, ⟨0, 10, 6, 0, 1⟩, ⟨0, 10, 6, 0, 0⟩]).2.1
      ⟨⟨0, 10, 6, 0, 1⟩, ⟨0, 1⟩, 0, ⟨1, 1⟩⟩ (by decide)).1.mpr
      ⟨rfl, rfl, rfl, rfl, by decide⟩,
    by decide,
    fun hb =>
      absurd (((both_high_only_between_opening_writes esp_zigbee_sdk ⟨0, 0⟩
        [⟨0, 10, 6, 0, 1⟩, ⟨0, 10, 6, 0, 1⟩, ⟨0, 10, 6, 0, 0⟩]).2.1
        ⟨⟨0, 10, 6, 0, 1⟩, ⟨1, 0⟩, 0, ⟨1, 0⟩⟩ (by decide)).1.mp hb).2.1 (by decide)⟩

/-! ## Commissioning signals: theorems -/

lemma steering_ne_labels (K : SdkConstants) :
    K.ESP_ZB_BDB_SIGNAL_STEERING ≠ K.ESP_ZB_ZDO_SIGNAL_SKIP_STARTUP ∧
    K.ESP_ZB_BDB_SIGNAL_STEERING ≠ K.ESP_ZB_BDB_SIGNAL_DEVICE_FIRST_START ∧
    K.ESP_ZB_BDB_SIGNAL_STEERING ≠ K.ESP_ZB_BDB_SIGNAL_DEVICE_REBOOT := by
  have h := K.case_labels_distinct
  simp only [List.nodup_cons, List.mem_cons, List.not_mem_nil, or_false, not_or] at h
  obtain ⟨⟨_, _, h1⟩, ⟨_, h2⟩, h3, _⟩ := h
  exact ⟨Ne.symm h1, Ne.symm h2, Ne.symm h3⟩

lemma first_start_reboot_ne_skip (K : SdkConstants) :
    K.ESP_ZB_BDB_SIGNAL_DEVICE_FIRST_START ≠ K.ESP_ZB_ZDO_SIGNAL_SKIP_STARTUP ∧
    K.ESP_ZB_BDB_SIGNAL_DEVICE_REBOOT ≠ K.ESP_ZB_ZDO_SIGNAL_SKIP_STARTUP := by
  have h := K.case_labels_distinct
  simp only [List.nodup_cons, List.mem_cons, List.not_mem_nil, or_false, not_or] at h
  obtain ⟨⟨h1, h2, _⟩, _⟩ := h
  exact ⟨Ne.symm h1, Ne.symm h2⟩

lemma handler_steering (K : SdkConstants) (err_status : Int) :
    esp_zb_app_signal_handler K K.ESP_ZB_BDB_SIGNAL_STEERING err_status =
      if err_status = K.ESP_OK then [.get_extended_pan_id, .get_pan_id, .log_info]
      else [.log_info,
        .scheduler_alarm .bdb_start_top_level_commissioning_cb
          K.ESP_ZB_BDB_MODE_NETWORK_STEERING 1000] := by
  obtain ⟨h1, h2, h3⟩ := steering_ne_labels K
  simp [esp_zb_app_signal_handler, h1, h2, h3]

lemma status_after_steering (K : SdkConstants) (st : CommissioningStatus) (err_status : Int) :
    status_after K st K.ESP_ZB_BDB_SIGNAL_STEERING err_status =
      if err_status = K.ESP_OK then .Joined else .Steering := by
  obtain ⟨h1, h2, h3⟩ := steering_ne_labels K
  simp [status_after, h1, h2, h3]

lemma signal_step_steering_failure (K : SdkConstants) (st : CommissioningStatus)
    (err_status : Int) (h : err_status ≠ K.ESP_OK) :
    signal_step K st K.ESP_ZB_BDB_SIGNAL_STEERING err_status =
      (.Steering,
        [.scheduler_alarm .bdb_start_top_level_commissioning_cb
          K.ESP_ZB_BDB_MODE_NETWORK_STEERING 1000]) := by
  unfold signal_step
  rw [handler_steering, status_after_steering, if_neg h, if_neg h]
  rfl

lemma signal_step_steering_ok (K : SdkConstants) (st : CommissioningStatus) :
    signal_step K st K.ESP_ZB_BDB_SIGNAL_STEERING K.ESP_OK = (.Joined, []) := by
  unfold signal_step
  rw [handler_steering, status_after_steering, if_pos rfl, if_pos rfl]
  rfl

/-- C5: for a steering-result signal with a non-OK status received in state Steering,
the handler logs one line and makes one request, so the list of requested actions is
exactly one one-shot alarm, set to 1000 ms, whose callback requests top-level
commissioning in network-steering mode when it fires, the same request that started
steering after device-first-start; there is no immediate commissioning request, and
the next status is Steering. -/
theorem steering_failure_schedules_one_retry (K : SdkConstants) (err_status : Int)
    (h : err_status ≠ K.ESP_OK) :
    esp_zb_app_signal_handler K K.ESP_ZB_BDB_SIGNAL_STEERING err_status =
      [.log_info,
        .scheduler_alarm .bdb_start_top_level_commissioning_cb
          K.ESP_ZB_BDB_MODE_NETWORK_STEERING 1000] ∧
    signal_step K .Steering K.ESP_ZB_BDB_SIGNAL_STEERING err_status =
      (.Steering,
        [.scheduler_alarm .bdb_start_top_level_commissioning_cb
          K.ESP_ZB_BDB_MODE_NETWORK_STEERING 1000]) ∧
    fire_callback .bdb_start_top_level_commissioning_cb K.ESP_ZB_BDB_MODE_NETWORK_STEERING =
      [.bdb_start_top_level_commissioning K.ESP_ZB_BDB_MODE_NETWORK_STEERING] ∧
    fire_callback .bdb_start_top_level_commissioning_cb K.ESP_ZB_BDB_MODE_NETWORK_STEERING =
      requested_actions
        (esp_zb_app_signal_handler K K.ESP_ZB_BDB_SIGNAL_DEVICE_FIRST_START K.ESP_OK) := by
  refine ⟨?_, signal_step_steering_failure K .Steering err_status h, rfl, ?_⟩
  · rw [handler_steering, if_neg h]
  · have hf := (first_start_reboot_ne_skip K).1
    simp [esp_zb_app_signal_handler, requested_actions, StackCall.is_request, hf,
      fire_callback, bdb_start_top_level_commissioning_cb]

/-- Witness for C5 with the SDK's constants: a steering result with status -1
(`ESP_FAIL`) in state Steering. -/
theorem steering_failure_schedules_one_retry_witness :
    signal_step esp_zigbee_sdk .Steering 0x0a (-1) =
      (.Steering, [.scheduler_alarm .bdb_start_top_level_commissioning_cb 0x02 1000]) :=
  (steering_failure_schedules_one_retry esp_zigbee_sdk (-1) (by decide)).2.1

/-- C6, as stated, fails: a steering result with OK status leads to Joined with no
request, but a later steering result with status -1 (`ESP_FAIL`) delivered while in
Joined still schedules the 1000 ms retry alarm. -/
theorem steering_failure_while_joined_schedules_retry :
    signal_step esp_zigbee_sdk .Steering 0x0a 0 = (.Joined, []) ∧
    (signal_step esp_zigbee_sdk .Joined 0x0a (-1)).2 =
      [.scheduler_alarm .bdb_start_top_level_commissioning_cb 0x02 1000] := by
  decide

/-- C6, amended: a steering-result signal with OK status moves the commissioning status
to Joined, requests no commissioning and schedules no retry, also when it is delivered
while already in Joined. The handler stores no status and does not treat Joined as
terminal: a steering-result signal with a non-OK status delivered while in Joined is
handled exactly as in Steering, scheduling the one-shot 1000 ms network-steering retry
alarm and nothing else, with the status back to Steering. -/
theorem steering_result_ignores_joined (K : SdkConstants) (st : CommissioningStatus)
    (err_status : Int) :
    signal_step K st K.ESP_ZB_BDB_SIGNAL_STEERING K.ESP_OK = (.Joined, []) ∧
    (err_status ≠ K.ESP_OK →
      signal_step K .Joined K.ESP_ZB_BDB_SIGNAL_STEERING err_status =
        (.Steering,
          [.scheduler_alarm .bdb_start_top_level_commissioning_cb
            K.ESP_ZB_BDB_MODE_NETWORK_STEERING 1000])) ∧
    signal_step K .Joined K.ESP_ZB_BDB_SIGNAL_STEERING err_status =
      signal_step K .Steering K.ESP_ZB_BDB_SIGNAL_STEERING err_status := by
  refine ⟨signal_step_steering_ok K st, signal_step_steering_failure K .Joined err_status, ?_⟩
  unfold signal_step
  rw [status_after_steering, status_after_steering]

/-- Witness for amended C6 with the SDK's constants: in Joined, a steering result with
OK status requests nothing, and one with status 259 schedules the retry. -/
theorem steering_result_ignores_joined_witness :
    signal_step esp_zigbee_sdk .Joined 0x0a 0 = (.Joined, []) ∧
    signal_step esp_zigbee_sdk .Joined 0x0a 259 =
      (.Steering, [.scheduler_alarm .bdb_start_top_level_commissioning_cb 0x02 1000]) :=
  ⟨(steering_result_ignores_joined esp_zigbee_sdk .Joined 259).1,
    (steering_result_ignores_joined esp_zigbee_sdk .Joined 259).2.1 (by decide)⟩

/-- C7: the requested actions of the handler are those of the transition table. A
stack-skip-startup signal requests top-level commissioning in initialization mode,
whatever the status; device-first-start or device-reboot with OK status requests
top-level commissioning in network-steering mode; device-first-start or device-reboot
with a non-OK status requests no commissioning and schedules no alarm; every signal
type other than these three and steering requests no commissioning and schedules no
alarm. -/
theorem handler_requests_match_table (K : SdkConstants) (sig_type : Nat) (err_status : Int) :
    requested_actions (esp_zb_app_signal_handler K K.ESP_ZB_ZDO_SIGNAL_SKIP_STARTUP err_status) =
      [.bdb_start_top_level_commissioning K.ESP_ZB_BDB_MODE_INITIALIZATION] ∧
    (sig_type = K.ESP_ZB_BDB_SIGNAL_DEVICE_FIRST_START ∨
        sig_type = K.ESP_ZB_BDB_SIGNAL_DEVICE_REBOOT →
      requested_actions (esp_zb_app_signal_handler K sig_type K.ESP_OK) =
        [.bdb_start_top_level_commissioning K.ESP_ZB_BDB_MODE_NETWORK_STEERING]) ∧
    (sig_type = K.ESP_ZB_BDB_SIGNAL_DEVICE_FIRST_START ∨
        sig_type = K.ESP_ZB_BDB_SIGNAL_DEVICE_REBOOT →
      err_status ≠ K.ESP_OK →
      requested_actions (esp_zb_app_signal_handler K sig_type err_status) = []) ∧
    (sig_type ≠ K.ESP_ZB_ZDO_SIGNAL_SKIP_STARTUP →
      sig_type ≠ K.ESP_ZB_BDB_SIGNAL_DEVICE_FIRST_START →
      sig_type ≠ K.ESP_ZB_BDB_SIGNAL_DEVICE_REBOOT →
      sig_type ≠ K.ESP_ZB_BDB_SIGNAL_STEERING →
      requested_actions (esp_zb_app_signal_handler K sig_type err_status) = []) := by
  obtain ⟨hf, hr⟩ := first_start_reboot_ne_skip K
  refine ⟨?_, ?_, ?_, ?_⟩
  · simp [esp_zb_app_signal_handler, requested_actions, StackCall.is_request]
  · intro hs
    have hne : sig_type ≠ K.ESP_ZB_ZDO_SIGNAL_SKIP_STARTUP := by
      rcases hs with h | h <;> rw [h] <;> assumption
    simp [esp_zb_app_signal_handler, requested_actions, StackCall.is_request, hne, hs]
  · intro hs he
    have hne : sig_type ≠ K.ESP_ZB_ZDO_SIGNAL_SKIP_STARTUP := by
      rcases hs with h | h <;> rw [h] <;> assumption
    simp [esp_zb_app_signal_handler, requested_actions, StackCall.is_request, hne, hs, he]
  · intro h1 h2 h3 h4
    simp [esp_zb_app_signal_handler, requested_actions, StackCall.is_request, h1, h2, h3, h4]

/-- Witness for C7 with the SDK's constants: device-reboot (0x06) with OK status starts
network steering, with status -1 it requests nothing, and the unlisted signal type
0x02 (device announce) requests nothing. -/
theorem handler_requests_match_table_witness :
    requested_actions (esp_zb_app_signal_handler esp_zigbee_sdk 0x06 0) =
      [.bdb_start_top_level_commissioning 0x02] ∧
    requested_actions (esp_zb_app_signal_handler esp_zigbee_sdk 0x06 (-1)) = [] ∧
    requested_actions (esp_zb_app_signal_handler esp_zigbee_sdk 0x02 (-1)) = [] :=
  ⟨(handler_requests_match_table esp_zigbee_sdk 0x06 (-1)).2.1 (Or.inr rfl),
    (handler_requests_match_table esp_zigbee_sdk 0x06 (-1)).2.2.1 (Or.inr rfl) (by decide),
    (handler_requests_match_table esp_zigbee_sdk 0x02 (-1)).2.2.2
      (by decide) (by decide) (by decide) (by decide)⟩

/-! ## Battery percentage: theorems -/

lemma calculate_battery_percentage_nonneg (v : ℚ) : 0 ≤ calculate_battery_percentage v := by
  unfold calculate_battery_percentage BATTERY_VOLTAGE_MAX BATTERY_VOLTAGE_MIN
  split_ifs with h1 h2
  · norm_num
  · norm_num
  · have h3 : (2.5 : ℚ) ≤ v := not_lt.mp h2
    have h4 : (0 : ℚ) ≤ v - 2.5 := by linarith
    have h5 : (0 : ℚ) < 4.2 - 2.5 := by norm_num
    positivity

lemma calculate_battery_percentage_le (v : ℚ) : calculate_battery_percentage v ≤ 100 := by
  unfold calculate_battery_percentage BATTERY_VOLTAGE_MAX BATTERY_VOLTAGE_MIN
  split_ifs with h1 h2
  · norm_num
  · norm_num
  · have h3 : v ≤ (4.2 : ℚ) := not_lt.mp h1
    have h5 : (0 : ℚ) < 4.2 - 2.5 := by norm_num
    have h6 : (v - 2.5) / (4.2 - 2.5) ≤ 1 := by
      rw [div_le_one h5]
      linarith
    have : (v - 2.5) / (4.2 - 2.5) * 100.0 ≤ 1 * 100 := by
      norm_num at h6 ⊢
      linarith
    linarith

lemma calculate_battery_percentage_mid (v : ℚ) (h1 : ¬ v > 4.2) (h2 : ¬ v < 2.5) :
    calculate_battery_percentage v = (v - 2.5) / (4.2 - 2.5) * 100 := by
  unfold calculate_battery_percentage BATTERY_VOLTAGE_MAX BATTERY_VOLTAGE_MIN
  rw [if_neg h1, if_neg h2]
  norm_num

/-- C8: over exact rational arithmetic with `BATTERY_VOLTAGE_MIN = 2.5` and
`BATTERY_VOLTAGE_MAX = 4.2`, `calculate_battery_percentage v` is 100 when `v ≥ 4.2`,
0 when `v ≤ 2.5`, and `(v - 2.5) / (4.2 - 2.5) * 100` in between; the boundary inputs
2.5 and 4.2 give exactly 0 and 100, and 3.35 gives 50. -/
theorem battery_percentage_clamps_then_interpolates (v : ℚ) :
    BATTERY_VOLTAGE_MIN = 2.5 ∧ BATTERY_VOLTAGE_MAX = 4.2 ∧
    (v ≥ 4.2 → calculate_battery_percentage v = 100) ∧
    (v ≤ 2.5 → calculate_battery_percentage v = 0) ∧
    (2.5 < v → v < 4.2 →
      calculate_battery_percentage v = (v - 2.5) / (4.2 - 2.5) * 100) ∧
    calculate_battery_percentage 2.5 = 0 ∧
    calculate_battery_percentage 4.2 = 100 ∧
    calculate_battery_percentage 3.35 = 50 := by
  refine ⟨rfl, rfl, ?_, ?_, ?_, ?_, ?_, ?_⟩
  · intro h
    rcases eq_or_lt_of_le h with h | h
    · rw [← h]
      norm_num [calculate_battery_percentage, BATTERY_VOLTAGE_MAX, BATTERY_VOLTAGE_MIN]
    · unfold calculate_battery_percentage BATTERY_VOLTAGE_MAX
      rw [if_pos h]
      norm_num
  · intro h
    rcases eq_or_lt_of_le h with h | h
    · rw [h]
      norm_num [calculate_battery_percentage, BATTERY_VOLTAGE_MAX, BATTERY_VOLTAGE_MIN]
    · unfold calculate_battery_percentage BATTERY_VOLTAGE_MAX BATTERY_VOLTAGE_MIN
      have h1 : ¬ v > (4.2 : ℚ) := by
        intro h2
        have : (2.5 : ℚ) < 4.2 := by norm_num
        linarith
      rw [if_neg h1, if_pos h]
      norm_num
  · intro h1 h2
    exact calculate_battery_percentage_mid v (not_lt.mpr h2.le) (not_lt.mpr h1.le)
  · norm_num [calculate_battery_percentage, BATTERY_VOLTAGE_MAX, BATTERY_VOLTAGE_MIN]
  · norm_num [calculate_battery_percentage, BATTERY_VOLTAGE_MAX, BATTERY_VOLTAGE_MIN]
  · norm_num [calculate_battery_percentage, BATTERY_VOLTAGE_MAX, BATTERY_VOLTAGE_MIN]

/-- Witness for C8: the three cases at 5 (above the maximum), 1 (below the minimum)
and 3 (in between, giving 500/17). -/
theorem battery_percentage_clamps_then_interpolates_witness :
    calculate_battery_percentage 5 = 100 ∧
    calculate_battery_percentage 1 = 0 ∧
    calculate_battery_percentage 3 = (3 - 2.5) / (4.2 - 2.5) * 100 :=
  ⟨(battery_percentage_clamps_then_interpolates 5).2.2.1 (by norm_num),
    (battery_percentage_clamps_then_interpolates 1).2.2.2.1 (by norm_num),
    (battery_percentage_clamps_then_interpolates 3).2.2.2.2.1 (by norm_num) (by norm_num)⟩

/-- C9: `calculate_battery_percentage` is monotonically non-decreasing over exact
arithmetic, also across the two clamp boundaries at 2.5 and 4.2. -/
theorem battery_percentage_monotone (v1 v2 : ℚ) (h : v1 ≤ v2) :
    calculate_battery_percentage v1 ≤ calculate_battery_percentage v2 := by
  by_cases h2 : v2 > BATTERY_VOLTAGE_MAX
  · have : calculate_battery_percentage v2 = 100 := by
      unfold calculate_battery_percentage
      rw [if_pos h2]
      norm_num
    rw [this]
    exact calculate_battery_percentage_le v1
  · by_cases h1 : v1 < BATTERY_VOLTAGE_MIN
    · have : calculate_battery_percentage v1 = 0 := by
        unfold calculate_battery_percentage
        have h3 : ¬ v1 > BATTERY_VOLTAGE_MAX := by
          unfold BATTERY_VOLTAGE_MAX BATTERY_VOLTAGE_MIN at *
          intro h4
          have : (2.5 : ℚ) < 4.2 := by norm_num
          linarith
        rw [if_neg h3, if_pos h1]
        norm_num
      rw [this]
      exact calculate_battery_percentage_nonneg v2
    · unfold BATTERY_VOLTAGE_MAX at h2
      unfold BATTERY_VOLTAGE_MIN at h1
      have h3 : ¬ v1 > (4.2 : ℚ) := fun h4 => h2 (lt_of_lt_of_le h4 h)
      have h4 : ¬ v2 < (2.5 : ℚ) := fun h5 => h1 (lt_of_le_of_lt h h5)
      rw [calculate_battery_percentage_mid v1 h3 h1, calculate_battery_percentage_mid v2 h2 h4]
      have h5 : (0 : ℚ) < 4.2 - 2.5 := by norm_num
      have h6 : (v1 - 2.5) / (4.2 - 2.5) ≤ (v2 - 2.5) / (4.2 - 2.5) := by
        apply div_le_div_of_nonneg_right _ h5.le
        linarith
      linarith

/-- Witness for C9: 2.4 lies below the minimum and 4.3 above the maximum. -/
theorem battery_percentage_monotone_witness :
    (2.4 : ℚ) ≤ 4.3 ∧
    calculate_battery_percentage 2.4 ≤ calculate_battery_percentage 4.3 :=
  ⟨by norm_num, battery_percentage_monotone 2.4 4.3 (by norm_num)⟩

/-- C10: for every voltage, negative and far above the maximum included,
`calculate_battery_percentage` lies in [0, 100] over exact arithmetic, and the byte the
reporting loop stores, its truncation cast to `uint8_t`, is the integer part of that
result itself, at most 100, so the reduction modulo 256 changes nothing; the same holds
for the byte stored for any raw ADC sample. -/
theorem battery_percentage_in_range (v : ℚ) (adc_value : Int) :
    0 ≤ calculate_battery_percentage v ∧
    calculate_battery_percentage v ≤ 100 ∧
    stored_battery_percentage v ≤ 100 ∧
    (stored_battery_percentage v : Int) = truncate (calculate_battery_percentage v) ∧
    (stored_battery_percentage v : Int) = ⌊calculate_battery_percentage v⌋ ∧
    app_main_cycle adc_value ≤ 100 := by
  have key : ∀ w : ℚ, stored_battery_percentage w ≤ 100 ∧
      (stored_battery_percentage w : Int) = truncate (calculate_battery_percentage w) ∧
      (stored_battery_percentage w : Int) = ⌊calculate_battery_percentage w⌋ := by
    intro w
    have h0 := calculate_battery_percentage_nonneg w
    have h1 := calculate_battery_percentage_le w
    have ht : truncate (calculate_battery_percentage w) = ⌊calculate_battery_percentage w⌋ := by
      unfold truncate
      rw [if_pos h0]
    have hf0 : 0 ≤ ⌊calculate_battery_percentage w⌋ := Int.floor_nonneg.mpr h0
    have hf1 : ⌊calculate_battery_percentage w⌋ ≤ 100 := by
      have : ⌊calculate_battery_percentage w⌋ ≤ ⌊(100 : ℚ)⌋ := Int.floor_le_floor h1
      simpa using this
    unfold stored_battery_percentage to_uint8
    rw [ht]
    omega
  exact ⟨calculate_battery_percentage_nonneg v, calculate_battery_percentage_le v,
    (key v).1, (key v).2.1, (key v).2.2, (key _).1⟩

end ValveNode
